import Mathlib

set_option linter.unusedVariables false

/-!
# Verification of the voice pipeline-construction core and the data resolver

This file gives a shallow embedding of the three source files of the
repository and proves the claims about them.

## Embedding of `BasePlayer` (src/unnamed/part_000)

The player's methods are modelled as pure functions on an explicit
`PlayerState`, returning the new state together with a trace of the
side effects they perform (constructor calls, `pipe` calls,
`dispatcher.destroy()` calls), in the exact order the JavaScript code
performs them.  Objects created with `new` are named by fresh natural
numbers drawn from `PlayerState.nextId`.  A constructor that can throw
is modelled through a `fails : Nat → Bool` oracle consulted at the id
the construction would receive; when it returns `true` the call
propagates the exception, i.e. returns `none` together with the trace
of everything that already happened (the source has no try/catch, so
nothing else runs).
-/

/-- The JavaScript value found in `options.volume`: absent (`undefined`),
the literal `false`, or a number. -/
inductive VolumeVal
  | undef
  | fls
  | num (v : Int)
deriving DecidableEq

/-- The `options` object taken by the `BasePlayer` play methods:
`seek` and `passes` are absent or a number, `volume` as above. -/
structure Options where
  seek : Option Nat
  volume : VolumeVal
  passes : Option Nat
deriving DecidableEq

/-- The object literal passed to `prism.opus.Encoder` / `prism.opus.Decoder`:
`{ channels, rate, frameSize }`.  It has no other field. -/
structure OpusParams where
  channels : Nat
  rate : Nat
  frameSize : Nat
deriving DecidableEq

/-- `{ channels: 2, rate: 48000, frameSize: 960 }`, the only parameter
record the source ever passes to the opus coder constructors. -/
def canonicalParams : OpusParams := ⟨2, 48000, 960⟩

/-- One observable side effect of the player code.  `stageDestroy` is the
teardown of a transform stage; the embedded source never emits it (no such
call appears in `part_000`), it exists so that claims about teardown can be
stated. -/
inductive Event
  | destroyDispatcher (id : Nat)
  | stageDestroy (id : Nat)
  | constructFFmpeg (id : Nat) (args : List String)
  | constructEncoder (id : Nat) (p : OpusParams)
  | constructDecoder (id : Nat) (p : OpusParams)
  | constructVolume (id : Nat) (v : VolumeVal)
  | constructDispatcher (id : Nat) (opts : Options)
  | pipe (src dst : Nat)
deriving DecidableEq

/-- The mutable fields of a `BasePlayer` relevant to the claims:
`this.dispatcher` (a `StreamDispatcher` or `null`) plus the fresh-name
source of the embedding. -/
structure PlayerState where
  dispatcher : Option Nat
  nextId : Nat
deriving DecidableEq

/-- The `streams` record threaded through the play methods
(`{ ffmpeg?, input?, opus?, volume? }`); absent fields are `none`. -/
structure Streams where
  ffmpeg : Option Nat := none
  input : Option Nat := none
  opus : Option Nat := none
  volume : Option Nat := none
deriving DecidableEq

/-- `FFMPEG_ARGUMENTS` from the source. -/
def FFMPEG_ARGUMENTS : List String :=
  ["-analyzeduration", "0", "-loglevel", "0", "-f", "s16le", "-ar", "48000", "-ac", "2"]

/-- The trace `destroyDispatcher()` produces from state `s`:
one `dispatcher.destroy()` call when a dispatcher is held, nothing
otherwise. -/
def destroyTrace (s : PlayerState) : List Event :=
  match s.dispatcher with
  | some d => [Event.destroyDispatcher d]
  | none => []

/-- `destroyDispatcher()`:
`if (this.dispatcher) { this.dispatcher.destroy(); this.dispatcher = null; }`. -/
def destroyDispatcher (s : PlayerState) : PlayerState × List Event :=
  match s.dispatcher with
  | some d => ({ s with dispatcher := none }, [Event.destroyDispatcher d])
  | none => (s, [])

/-- `destroy() { this.destroyDispatcher(); }`. -/
def destroy (s : PlayerState) : PlayerState × List Event :=
  destroyDispatcher s

/-- `createDispatcher(options, streams)`:
`this.destroyDispatcher(); const dispatcher = this.dispatcher = new
StreamDispatcher(this, options, streams, broadcast); return dispatcher;`.
Returns the new dispatcher's id, the new state, and the trace. -/
def createDispatcher (opts : Options) (streams : Streams) (s : PlayerState) :
    Nat × PlayerState × List Event :=
  let s1 := (destroyDispatcher s).1
  let t1 := (destroyDispatcher s).2
  let d := s1.nextId
  (d, { s1 with dispatcher := some d, nextId := d + 1 },
   t1 ++ [Event.constructDispatcher d opts])

/-- `playOpusStream(stream, options, streams = {})`.  Mirrors the source:
destroy the current dispatcher, set `streams.opus = stream`; when
`options.volume !== false && !streams.input`, set `streams.input = stream`
and build `stream.pipe(new Decoder).pipe(new VolumeTransformer16LE).pipe(new
Encoder)` (constructor and pipe calls in JavaScript evaluation order);
finally `createDispatcher` and `streams.opus.pipe(dispatcher)`. -/
def playOpusStream (fails : Nat → Bool) (stream : Nat) (opts : Options)
    (streams : Streams) (s : PlayerState) :
    PlayerState × List Event × Option Nat :=
  let s1 := (destroyDispatcher s).1
  let t1 := (destroyDispatcher s).2
  let streams1 : Streams := { streams with opus := some stream }
  if opts.volume ≠ VolumeVal.fls ∧ streams1.input = none then
    let streams2 : Streams := { streams1 with input := some stream }
    let did := s1.nextId
    if fails did then ({ s1 with nextId := did + 1 }, t1, none)
    else
      let t2 := t1 ++ [Event.constructDecoder did canonicalParams]
      let vid := did + 1
      if fails vid then ({ s1 with nextId := vid + 1 }, t2, none)
      else
        let t3 := t2 ++ [Event.constructVolume vid opts.volume]
        let t4 := t3 ++ [Event.pipe stream did, Event.pipe did vid]
        let eid := vid + 1
        if fails eid then ({ s1 with nextId := eid + 1 }, t4, none)
        else
          let t5 := t4 ++ [Event.constructEncoder eid canonicalParams, Event.pipe vid eid]
          let streams3 : Streams := { streams2 with volume := some vid, opus := some eid }
          let r := createDispatcher opts streams3 { s1 with nextId := eid + 1 }
          (r.2.1, t5 ++ r.2.2 ++ [Event.pipe eid r.1], some r.1)
  else
    let r := createDispatcher opts streams1 s1
    (r.2.1, t1 ++ r.2.2 ++ [Event.pipe stream r.1], some r.1)

/-- `playPCMStream(stream, options, streams = {})`.  Mirrors the source:
destroy the current dispatcher, `streams.opus = new Encoder(...)`; when
`options.volume === false`, `stream.pipe(opus)` and tail-call
`playOpusStream`; otherwise `streams.volume = new VolumeTransformer16LE({
volume: options.volume })`, `stream.pipe(volume).pipe(opus)` and tail-call
`playOpusStream`. -/
def playPCMStream (fails : Nat → Bool) (stream : Nat) (opts : Options)
    (streams : Streams) (s : PlayerState) :
    PlayerState × List Event × Option Nat :=
  let s1 := (destroyDispatcher s).1
  let t1 := (destroyDispatcher s).2
  let oid := s1.nextId
  if fails oid then ({ s1 with nextId := oid + 1 }, t1, none)
  else
    let t2 := t1 ++ [Event.constructEncoder oid canonicalParams]
    let streams1 : Streams := { streams with opus := some oid }
    let s2 : PlayerState := { s1 with nextId := oid + 1 }
    if opts.volume = VolumeVal.fls then
      let t3 := t2 ++ [Event.pipe stream oid]
      let r := playOpusStream fails oid opts streams1 s2
      (r.1, t3 ++ r.2.1, r.2.2)
    else
      let vid := oid + 1
      if fails vid then ({ s2 with nextId := vid + 1 }, t2, none)
      else
        let t3 := t2 ++ [Event.constructVolume vid opts.volume,
                         Event.pipe stream vid, Event.pipe vid oid]
        let streams2 : Streams := { streams1 with volume := some vid }
        let r := playOpusStream fails oid opts streams2 { s2 with nextId := vid + 1 }
        (r.1, t3 ++ r.2.1, r.2.2)

/-- The argument of `playUnknown`: a readable stream or a path string. -/
inductive PlayInput
  | stream (id : Nat)
  | path (p : String)
deriving DecidableEq

/-- JavaScript truthiness of `options.seek` (a number or `undefined`):
`0` and `undefined` are falsy. -/
def seekTruthy : Option Nat → Bool
  | some k => k != 0
  | none => false

/-- `playUnknown(input, options)`.  Mirrors the source: destroy the current
dispatcher, build the ffmpeg argument list (prepending `['-i', input]` for a
path input, appending `['-ss', String(options.seek)]` when `options.seek` is
truthy), construct the `prism.FFmpeg` stage, record `streams = { ffmpeg }`
plus `streams.input = input; input.pipe(ffmpeg)` for a stream input, and
tail-call `playPCMStream(ffmpeg, options, streams)`. -/
def playUnknown (fails : Nat → Bool) (input : PlayInput) (opts : Options)
    (s : PlayerState) : PlayerState × List Event × Option Nat :=
  let s1 := (destroyDispatcher s).1
  let t1 := (destroyDispatcher s).2
  let baseArgs : List String :=
    match input with
    | PlayInput.stream _ => FFMPEG_ARGUMENTS
    | PlayInput.path p => ["-i", p] ++ FFMPEG_ARGUMENTS
  let args := if seekTruthy opts.seek then
      baseArgs ++ ["-ss", toString (opts.seek.getD 0)] else baseArgs
  let fid := s1.nextId
  if fails fid then ({ s1 with nextId := fid + 1 }, t1, none)
  else
    let t2 := t1 ++ [Event.constructFFmpeg fid args]
    let streams : Streams :=
      match input with
      | PlayInput.stream i => { ffmpeg := some fid, input := some i }
      | PlayInput.path _ => { ffmpeg := some fid }
    let t3 := t2 ++ (match input with
      | PlayInput.stream i => [Event.pipe i fid]
      | PlayInput.path _ => [])
    let r := playPCMStream fails fid opts streams { s1 with nextId := fid + 1 }
    (r.1, t3 ++ r.2.1, r.2.2)

/-- A public call on the player: the three play entry points (each with the
default `streams = {}` of a direct call) or `destroy()`. -/
inductive Call
  | unknown (input : PlayInput) (opts : Options)
  | pcm (stream : Nat) (opts : Options)
  | opus (stream : Nat) (opts : Options)
  | stop
deriving DecidableEq

/-- Execute one public call. -/
def step (fails : Nat → Bool) (c : Call) (s : PlayerState) :
    PlayerState × List Event × Option Nat :=
  match c with
  | Call.unknown input opts => playUnknown fails input opts s
  | Call.pcm stream opts => playPCMStream fails stream opts {} s
  | Call.opus stream opts => playOpusStream fails stream opts {} s
  | Call.stop => ((destroy s).1, (destroy s).2, none)

/-- Execute a sequence of public calls, concatenating the traces. -/
def run (fails : Nat → Bool) : List Call → PlayerState → PlayerState × List Event
  | [], s => (s, [])
  | c :: cs, s =>
    ((run fails cs (step fails c s).1).1,
     (step fails c s).2.1 ++ (run fails cs (step fails c s).1).2)

/-- A freshly constructed player: `this.dispatcher = null`. -/
def initState : PlayerState := ⟨none, 0⟩

/-! ### Trace observations -/

/-- Ids of the `dispatcher.destroy()` calls in a trace. -/
def destroys : List Event → List Nat
  | [] => []
  | Event.destroyDispatcher d :: t => d :: destroys t
  | _ :: t => destroys t

/-- Ids of the `new StreamDispatcher` constructions in a trace. -/
def creations : List Event → List Nat
  | [] => []
  | Event.constructDispatcher d _ :: t => d :: creations t
  | _ :: t => creations t

/-- Ids of stage teardowns in a trace (the embedded source emits none). -/
def stageDestroys : List Event → List Nat
  | [] => []
  | Event.stageDestroy d :: t => d :: stageDestroys t
  | _ :: t => stageDestroys t

/-- The kinds of transform stage. -/
inductive StageKind
  | ffmpeg
  | encoder
  | decoder
  | volume
deriving DecidableEq

/-- The transform stages constructed in a trace, in construction order. -/
def stagesOf (t : List Event) : List StageKind :=
  t.filterMap fun e => match e with
    | Event.constructFFmpeg _ _ => some StageKind.ffmpeg
    | Event.constructEncoder _ _ => some StageKind.encoder
    | Event.constructDecoder _ _ => some StageKind.decoder
    | Event.constructVolume _ _ => some StageKind.volume
    | _ => none

/-- The stage-construction events of a trace (with ids and parameters). -/
def stageEvents (t : List Event) : List Event :=
  t.filter fun e => match e with
    | Event.constructFFmpeg _ _ => true
    | Event.constructEncoder _ _ => true
    | Event.constructDecoder _ _ => true
    | Event.constructVolume _ _ => true
    | _ => false

/-- The `(source, destination)` pairs of the `pipe` calls in a trace. -/
def pipesOf (t : List Event) : List (Nat × Nat) :=
  t.filterMap fun e => match e with
    | Event.pipe a b => some (a, b)
    | _ => none

/-- The `options` records passed to `new StreamDispatcher` in a trace. -/
def dispatcherOptsOf (t : List Event) : List Options :=
  t.filterMap fun e => match e with
    | Event.constructDispatcher _ o => some o
    | _ => none

/-- The parameter records passed to `new prism.opus.Encoder` in a trace. -/
def encoderParamsOf (t : List Event) : List OpusParams :=
  t.filterMap fun e => match e with
    | Event.constructEncoder _ p => some p
    | _ => none

/-- A construction oracle under which no constructor throws. -/
def noFail : Nat → Bool := fun _ => false

/-! ### Structural lemmas about the traces -/

theorem destroyDispatcher_eq (s : PlayerState) :
    destroyDispatcher s = ({ s with dispatcher := none }, destroyTrace s) := by
  cases s with
  | mk d n => cases d <;> rfl

/-- The specification every public call satisfies: the trace starts with the
destruction of the previously held dispatcher; no further dispatcher is
destroyed; the dispatchers constructed are exactly the returned one; the final
slot holds the returned dispatcher; ids only grow; no stage teardown happens. -/
def StepSpec (s : PlayerState) (out : PlayerState × List Event × Option Nat) : Prop :=
  (∃ t, out.2.1 = destroyTrace s ++ t ∧ destroys t = []) ∧
  creations out.2.1 = out.2.2.toList ∧
  stageDestroys out.2.1 = [] ∧
  out.1.dispatcher = out.2.2 ∧
  s.nextId ≤ out.1.nextId ∧
  (∀ d, out.2.2 = some d → s.nextId ≤ d)

theorem destroys_append (t1 t2 : List Event) :
    destroys (t1 ++ t2) = destroys t1 ++ destroys t2 := by
  induction t1 with
  | nil => rfl
  | cons e t ih => cases e <;> simp [destroys, ih]

theorem creations_append (t1 t2 : List Event) :
    creations (t1 ++ t2) = creations t1 ++ creations t2 := by
  induction t1 with
  | nil => rfl
  | cons e t ih => cases e <;> simp [creations, ih]

theorem stageDestroys_append (t1 t2 : List Event) :
    stageDestroys (t1 ++ t2) = stageDestroys t1 ++ stageDestroys t2 := by
  induction t1 with
  | nil => rfl
  | cons e t ih => cases e <;> simp [stageDestroys, ih]

theorem destroys_destroyTrace (s : PlayerState) :
    destroys (destroyTrace s) = s.dispatcher.toList := by
  cases hd : s.dispatcher <;> simp [destroyTrace, destroys, hd]

theorem creations_destroyTrace (s : PlayerState) :
    creations (destroyTrace s) = [] := by
  cases hd : s.dispatcher <;> simp [destroyTrace, creations, hd]

theorem stageDestroys_destroyTrace (s : PlayerState) :
    stageDestroys (destroyTrace s) = [] := by
  cases hd : s.dispatcher <;> simp [destroyTrace, stageDestroys, hd]

theorem opusSpec (fails : Nat → Bool) (stream : Nat) (opts : Options)
    (streams : Streams) (s : PlayerState) :
    StepSpec s (playOpusStream fails stream opts streams s) := by
  unfold StepSpec playOpusStream createDispatcher
  simp only [destroyDispatcher_eq]
  cases hd : s.dispatcher <;> simp only [destroyTrace, hd] <;>
    split <;> (try split) <;> (try split) <;> (try split) <;>
    refine ⟨⟨_, rfl, rfl⟩, rfl, rfl, rfl, by dsimp only; omega, ?_⟩ <;>
    intro d h <;> cases h <;> omega

/-- Prefixing a call's trace with the caller's `destroyDispatcher()` trace and
dispatcher-free intermediate events preserves the step specification. -/
theorem stepSpec_tail (s s2 : PlayerState) (mid : List Event)
    (out : PlayerState × List Event × Option Nat)
    (h2 : s2.dispatcher = none) (hn : s.nextId ≤ s2.nextId)
    (hD : destroys mid = []) (hC : creations mid = []) (hS : stageDestroys mid = [])
    (hspec : StepSpec s2 out) :
    StepSpec s (out.1, destroyTrace s ++ (mid ++ out.2.1), out.2.2) := by
  obtain ⟨⟨t, ht, htD⟩, hc, hsd, hdisp, hnext, hfresh⟩ := hspec
  refine ⟨⟨mid ++ out.2.1, rfl, ?_⟩, ?_, ?_, hdisp, le_trans hn hnext,
    fun d hd => le_trans hn (hfresh d hd)⟩
  · simp [destroys_append, hD, ht, destroys_destroyTrace, h2, htD]
  · simp [creations_append, creations_destroyTrace, hC, hc]
  · simp [stageDestroys_append, stageDestroys_destroyTrace, hS, hsd]

/-- A play call that aborts because a constructor threw satisfies the step
specification: the exception propagates with no dispatcher created and the
slot left cleared. -/
theorem stepSpec_abort (s : PlayerState) (k : Nat) (mid : List Event)
    (hk : s.nextId ≤ k) (hD : destroys mid = []) (hC : creations mid = [])
    (hS : stageDestroys mid = []) :
    StepSpec s (⟨none, k⟩, destroyTrace s ++ mid, none) := by
  refine ⟨⟨mid, rfl, hD⟩, ?_, ?_, rfl, hk, fun d h => nomatch h⟩
  · simp [creations_append, creations_destroyTrace, hC]
  · simp [stageDestroys_append, stageDestroys_destroyTrace, hS]

theorem pcmSpec (fails : Nat → Bool) (stream : Nat) (opts : Options)
    (streams : Streams) (s : PlayerState) :
    StepSpec s (playPCMStream fails stream opts streams s) := by
  unfold playPCMStream
  simp only [destroyDispatcher_eq]
  split
  · simpa using stepSpec_abort s (s.nextId + 1) [] (Nat.le_succ _) rfl rfl rfl
  · split
    · simpa [List.append_assoc] using
        stepSpec_tail s ⟨none, s.nextId + 1⟩
          [Event.constructEncoder s.nextId canonicalParams, Event.pipe stream s.nextId]
          (playOpusStream fails s.nextId opts { streams with opus := some s.nextId }
            ⟨none, s.nextId + 1⟩)
          rfl (Nat.le_succ _) rfl rfl rfl
          (opusSpec fails s.nextId opts { streams with opus := some s.nextId }
            ⟨none, s.nextId + 1⟩)
    · split
      · simpa [List.append_assoc] using
          stepSpec_abort s (s.nextId + 1 + 1)
            [Event.constructEncoder s.nextId canonicalParams]
            (le_trans (Nat.le_succ _) (Nat.le_succ _)) rfl rfl rfl
      · simpa [List.append_assoc] using
          stepSpec_tail s ⟨none, s.nextId + 1 + 1⟩
            [Event.constructEncoder s.nextId canonicalParams,
             Event.constructVolume (s.nextId + 1) opts.volume,
             Event.pipe stream (s.nextId + 1), Event.pipe (s.nextId + 1) s.nextId]
            (playOpusStream fails s.nextId opts
              { streams with opus := some s.nextId, volume := some (s.nextId + 1) }
              ⟨none, s.nextId + 1 + 1⟩)
            rfl (le_trans (Nat.le_succ _) (Nat.le_succ _)) rfl rfl rfl
            (opusSpec fails s.nextId opts
              { streams with opus := some s.nextId, volume := some (s.nextId + 1) }
              ⟨none, s.nextId + 1 + 1⟩)

theorem unknownSpec (fails : Nat → Bool) (input : PlayInput) (opts : Options)
    (s : PlayerState) :
    StepSpec s (playUnknown fails input opts s) := by
  unfold playUnknown
  simp only [destroyDispatcher_eq]
  cases input with
  | stream i =>
    split
    · simpa using stepSpec_abort s (s.nextId + 1) [] (Nat.le_succ _) rfl rfl rfl
    · simpa [List.append_assoc] using
        stepSpec_tail s ⟨none, s.nextId + 1⟩
          [Event.constructFFmpeg s.nextId
            (if seekTruthy opts.seek then
              FFMPEG_ARGUMENTS ++ ["-ss", toString (opts.seek.getD 0)] else FFMPEG_ARGUMENTS),
           Event.pipe i s.nextId]
          (playPCMStream fails s.nextId opts
            { ffmpeg := some s.nextId, input := some i } ⟨none, s.nextId + 1⟩)
          rfl (Nat.le_succ _) (by split <;> rfl) (by split <;> rfl) (by split <;> rfl)
          (pcmSpec fails s.nextId opts
            { ffmpeg := some s.nextId, input := some i } ⟨none, s.nextId + 1⟩)
  | path p =>
    split
    · simpa using stepSpec_abort s (s.nextId + 1) [] (Nat.le_succ _) rfl rfl rfl
    · simpa [List.append_assoc] using
        stepSpec_tail s ⟨none, s.nextId + 1⟩
          [Event.constructFFmpeg s.nextId
            (if seekTruthy opts.seek then
              (["-i", p] ++ FFMPEG_ARGUMENTS) ++ ["-ss", toString (opts.seek.getD 0)]
             else ["-i", p] ++ FFMPEG_ARGUMENTS)]
          (playPCMStream fails s.nextId opts { ffmpeg := some s.nextId } ⟨none, s.nextId + 1⟩)
          rfl (Nat.le_succ _) (by split <;> rfl) (by split <;> rfl) (by split <;> rfl)
          (pcmSpec fails s.nextId opts { ffmpeg := some s.nextId } ⟨none, s.nextId + 1⟩)

theorem stopSpec (s : PlayerState) :
    StepSpec s ((destroy s).1, (destroy s).2, none) := by
  unfold destroy
  rw [destroyDispatcher_eq]
  exact ⟨⟨[], by simp, rfl⟩, by simp [creations_destroyTrace],
    by simp [stageDestroys_destroyTrace], rfl, le_refl _, fun d h => nomatch h⟩

theorem stepSpec (fails : Nat → Bool) (c : Call) (s : PlayerState) :
    StepSpec s (step fails c s) := by
  cases c with
  | unknown input opts => exact unknownSpec fails input opts s
  | pcm stream opts => exact pcmSpec fails stream opts {} s
  | opus stream opts => exact opusSpec fails stream opts {} s
  | stop => exact stopSpec s

/-! ### Live dispatchers along a trace -/

/-- The set (as a list) of live dispatchers after one event: a
`StreamDispatcher` is live from its construction until its `destroy()`. -/
def liveStep (l : List Nat) : Event → List Nat
  | Event.constructDispatcher d _ => l ++ [d]
  | Event.destroyDispatcher d => l.filter (fun x => x ≠ d)
  | _ => l

/-- The live dispatchers after a whole trace, starting from `l`. -/
def finalLive (l : List Nat) (t : List Event) : List Nat := t.foldl liveStep l

/-- `true` iff at every instant along the trace (starting from live set `l`)
at most one dispatcher is live. -/
def boundedLive (l : List Nat) : List Event → Bool
  | [] => true
  | e :: t => decide ((liveStep l e).length ≤ 1) && boundedLive (liveStep l e) t

theorem finalLive_append (l : List Nat) (t1 t2 : List Event) :
    finalLive l (t1 ++ t2) = finalLive (finalLive l t1) t2 := by
  simp [finalLive, List.foldl_append]

theorem boundedLive_append (l : List Nat) (t1 t2 : List Event) :
    boundedLive l (t1 ++ t2) = (boundedLive l t1 && boundedLive (finalLive l t1) t2) := by
  induction t1 generalizing l with
  | nil => simp [boundedLive, finalLive]
  | cons e t ih => simp [boundedLive, finalLive, ih, Bool.and_assoc]

theorem finalLive_no_destroys (t : List Event) (l : List Nat)
    (hD : destroys t = []) : finalLive l t = l ++ creations t := by
  induction t generalizing l with
  | nil => simp [finalLive, creations]
  | cons e t ih =>
    cases e
    case destroyDispatcher d => exact absurd hD (by simp [destroys])
    case constructDispatcher d o =>
      simp only [destroys] at hD
      simp only [finalLive, List.foldl_cons, liveStep, creations]
      rw [show List.foldl liveStep (l ++ [d]) t = finalLive (l ++ [d]) t from rfl, ih _ hD]
      simp
    all_goals
      simp only [destroys] at hD
    all_goals
      simp only [finalLive, List.foldl_cons, liveStep, creations]
    all_goals
      exact ih _ hD

theorem boundedLive_no_destroys (t : List Event) (l : List Nat)
    (hD : destroys t = []) (hlen : l.length + (creations t).length ≤ 1) :
    boundedLive l t = true := by
  induction t generalizing l with
  | nil => simp [boundedLive]
  | cons e t ih =>
    cases e
    case destroyDispatcher d => exact absurd hD (by simp [destroys])
    case constructDispatcher d o =>
      simp only [destroys] at hD
      simp only [creations, List.length_cons] at hlen
      simp only [boundedLive, liveStep, Bool.and_eq_true, decide_eq_true_eq]
      refine ⟨?_, ih _ hD ?_⟩ <;>
        simp only [List.length_append, List.length_cons, List.length_nil] <;> omega
    all_goals
      simp only [destroys] at hD
    all_goals
      simp only [creations] at hlen
    all_goals
      simp only [boundedLive, liveStep, Bool.and_eq_true, decide_eq_true_eq]
    all_goals
      exact ⟨by omega, ih _ hD hlen⟩

theorem step_bounded (fails : Nat → Bool) (c : Call) (s : PlayerState) :
    boundedLive s.dispatcher.toList (step fails c s).2.1 = true ∧
    finalLive s.dispatcher.toList (step fails c s).2.1 = (step fails c s).1.dispatcher.toList := by
  obtain ⟨⟨t, ht, htD⟩, hc, hsd, hdisp, hnext, hfresh⟩ := stepSpec fails c s
  have hct : creations t = (step fails c s).2.2.toList := by
    rw [ht, creations_append, creations_destroyTrace] at hc
    simpa using hc
  have hlen : (creations t).length ≤ 1 := by
    rw [hct]; cases (step fails c s).2.2 <;> simp
  have hb0 : boundedLive [] t = true :=
    boundedLive_no_destroys t [] htD (by simpa using hlen)
  have hf0 : finalLive [] t = creations t := by
    simpa using finalLive_no_destroys t [] htD
  have hpre : finalLive s.dispatcher.toList (destroyTrace s) = [] := by
    cases hd : s.dispatcher <;> simp [destroyTrace, hd, finalLive, liveStep]
  have hpb : boundedLive s.dispatcher.toList (destroyTrace s) = true := by
    cases hd : s.dispatcher <;> simp [destroyTrace, hd, boundedLive, liveStep]
  constructor
  · rw [ht, boundedLive_append, hpre, hpb, hb0]
    rfl
  · rw [ht, finalLive_append, hpre, hdisp, hf0, hct]

theorem run_bounded (fails : Nat → Bool) (cs : List Call) :
    ∀ s : PlayerState,
      boundedLive s.dispatcher.toList (run fails cs s).2 = true ∧
      finalLive s.dispatcher.toList (run fails cs s).2 = (run fails cs s).1.dispatcher.toList := by
  induction cs with
  | nil => intro s; simp [run, boundedLive, finalLive]
  | cons c cs ih =>
    intro s
    obtain ⟨hb, hf⟩ := step_bounded fails c s
    obtain ⟨hb2, hf2⟩ := ih (step fails c s).1
    unfold run
    dsimp only
    constructor
    · rw [boundedLive_append, hb, hf, hb2]
      rfl
    · rw [finalLive_append, hf, hf2]

/-! ## The claims about `BasePlayer` -/

/-- **C1**: for every player and every sequence of public play calls
(`playUnknown`, `playPCMStream`, `playOpusStream`, and hence
`createDispatcher`), the player holds at most one live (non-destroyed)
dispatcher at any instant; each entry point's very first action is the
synchronous `destroy()` of the currently held dispatcher together with the
clearing of the slot, before the new dispatcher is constructed and stored. -/
theorem C1_at_most_one_live_dispatcher :
    (∀ (fails : Nat → Bool) (cs : List Call),
        boundedLive [] (run fails cs initState).2 = true) ∧
    (∀ (fails : Nat → Bool) (c : Call) (s : PlayerState) (d0 : Nat),
        s.dispatcher = some d0 →
        (step fails c s).2.1.head? = some (Event.destroyDispatcher d0)) ∧
    (∀ (fails : Nat → Bool) (c : Call) (s : PlayerState) (d0 : Nat),
        s.dispatcher = some d0 → d0 < s.nextId →
        (step fails c s).1.dispatcher ≠ some d0 ∧
        (step fails c s).1.dispatcher = (step fails c s).2.2) := by
  refine ⟨fun fails cs => ?_, fun fails c s d0 hd => ?_, fun fails c s d0 hd hlt => ?_⟩
  · simpa [initState] using (run_bounded fails cs initState).1
  · obtain ⟨⟨t, ht, htD⟩, _⟩ := stepSpec fails c s
    rw [ht]
    simp [destroyTrace, hd]
  · obtain ⟨⟨t, ht, htD⟩, hc, hsd, hdisp, hnext, hfresh⟩ := stepSpec fails c s
    refine ⟨?_, hdisp⟩
    intro hcontra
    rw [hdisp] at hcontra
    have := hfresh d0 hcontra
    omega

/-- Witness for C1 at a concrete player state holding dispatcher `5`. -/
theorem C1_at_most_one_live_dispatcher_witness :
    (step noFail (Call.pcm 0 ⟨none, VolumeVal.num 1, none⟩) ⟨some 5, 6⟩).2.1.head? =
        some (Event.destroyDispatcher 5) ∧
    (step noFail (Call.pcm 0 ⟨none, VolumeVal.num 1, none⟩) ⟨some 5, 6⟩).1.dispatcher ≠ some 5 :=
  ⟨C1_at_most_one_live_dispatcher.2.1 noFail _ _ 5 rfl,
   (C1_at_most_one_live_dispatcher.2.2 noFail _ _ 5 rfl (by decide)).1⟩

/-- **C2**: a play request entering through `playOpusStream` with
`options.volume === false` builds a pure passthrough pipeline: no decoder, no
volume transformer and no encoder is constructed (no transform stage at all),
and the caller-supplied stream is piped directly to the newly constructed
dispatcher. -/
theorem C2_opus_volume_disabled_passthrough (fails : Nat → Bool) (stream : Nat)
    (seek passes : Option Nat) (s : PlayerState) :
    stagesOf (playOpusStream fails stream ⟨seek, VolumeVal.fls, passes⟩ {} s).2.1 = [] ∧
    pipesOf (playOpusStream fails stream ⟨seek, VolumeVal.fls, passes⟩ {} s).2.1 =
      [(stream, s.nextId)] ∧
    (playOpusStream fails stream ⟨seek, VolumeVal.fls, passes⟩ {} s).2.2 = some s.nextId ∧
    (playOpusStream fails stream ⟨seek, VolumeVal.fls, passes⟩ {} s).1.dispatcher =
      some s.nextId := by
  unfold playOpusStream createDispatcher
  simp only [destroyDispatcher_eq]
  cases hd : s.dispatcher <;>
    simp [destroyTrace, hd, stagesOf, pipesOf]

/-- **C4**: a play request entering through `playOpusStream` with a numeric
volume factor builds exactly the chain decoder → volume transformer (carrying
the requested factor) → encoder, in that order, and pipes the terminal
encoder into the dispatcher. -/
theorem C4_opus_volume_enabled_chain (stream : Nat) (seek passes : Option Nat)
    (v : Int) (s : PlayerState) :
    stagesOf (playOpusStream noFail stream ⟨seek, VolumeVal.num v, passes⟩ {} s).2.1 =
      [StageKind.decoder, StageKind.volume, StageKind.encoder] ∧
    Event.constructVolume (s.nextId + 1) (VolumeVal.num v) ∈
      (playOpusStream noFail stream ⟨seek, VolumeVal.num v, passes⟩ {} s).2.1 ∧
    pipesOf (playOpusStream noFail stream ⟨seek, VolumeVal.num v, passes⟩ {} s).2.1 =
      [(stream, s.nextId), (s.nextId, s.nextId + 1), (s.nextId + 1, s.nextId + 2),
       (s.nextId + 2, s.nextId + 3)] ∧
    (playOpusStream noFail stream ⟨seek, VolumeVal.num v, passes⟩ {} s).2.2 =
      some (s.nextId + 3) ∧
    creations (playOpusStream noFail stream ⟨seek, VolumeVal.num v, passes⟩ {} s).2.1 =
      [s.nextId + 3] := by
  unfold playOpusStream createDispatcher
  simp only [destroyDispatcher_eq]
  cases hd : s.dispatcher <;>
    simp [destroyTrace, hd, stagesOf, pipesOf, creations, noFail]

/-- **C3 counterexample**: entering through `playPCMStream` with volume
enabled (factor 1) does *not* build the chain `[VolumeScale,
EncodeToCanonical]` only: because `playPCMStream` never sets
`streams.input`, the guard in `playOpusStream` re-enters the decode branch
and a decoder, a second volume transformer and a second encoder are
constructed downstream. -/
theorem C3_counterexample :
    stagesOf (playPCMStream noFail 100 ⟨none, VolumeVal.num 1, none⟩ {} initState).2.1 =
      [StageKind.encoder, StageKind.volume, StageKind.decoder, StageKind.volume,
       StageKind.encoder] ∧
    StageKind.decoder ∈
      stagesOf (playPCMStream noFail 100 ⟨none, VolumeVal.num 1, none⟩ {} initState).2.1 := by
  decide

/-- **C3 amended**: entering through `playPCMStream` with the default
`streams = {}`, volume disabled builds exactly `[EncodeToCanonical]` as
claimed; volume enabled builds `[VolumeScale, EncodeToCanonical]` and then,
because `streams.input` was never set, `playOpusStream` additionally
constructs `[DecodeFromCanonical, VolumeScale, EncodeToCanonical]`
downstream before the dispatcher, so the data path is
volume → encoder → decoder → volume → encoder → dispatcher. -/
theorem C3_pcm_stage_chains (stream : Nat) (seek passes : Option Nat) (v : Int)
    (s : PlayerState) :
    (stagesOf (playPCMStream noFail stream ⟨seek, VolumeVal.fls, passes⟩ {} s).2.1 =
        [StageKind.encoder] ∧
     pipesOf (playPCMStream noFail stream ⟨seek, VolumeVal.fls, passes⟩ {} s).2.1 =
        [(stream, s.nextId), (s.nextId, s.nextId + 1)]) ∧
    (stagesOf (playPCMStream noFail stream ⟨seek, VolumeVal.num v, passes⟩ {} s).2.1 =
        [StageKind.encoder, StageKind.volume, StageKind.decoder, StageKind.volume,
         StageKind.encoder] ∧
     pipesOf (playPCMStream noFail stream ⟨seek, VolumeVal.num v, passes⟩ {} s).2.1 =
        [(stream, s.nextId + 1), (s.nextId + 1, s.nextId), (s.nextId, s.nextId + 2),
         (s.nextId + 2, s.nextId + 3), (s.nextId + 3, s.nextId + 4),
         (s.nextId + 4, s.nextId + 5)]) := by
  unfold playPCMStream playOpusStream createDispatcher
  simp only [destroyDispatcher_eq]
  cases hd : s.dispatcher <;>
    simp [destroyTrace, hd, stagesOf, pipesOf, noFail]

/-- **C5 counterexample**: `redundancyPasses` is *not* a construction
parameter of the opus encoder: with `passes: 3`, every stage-construction
event is identical to the `passes: 1` run, the encoders are constructed with
`{ channels: 2, rate: 48000, frameSize: 960 }` (no passes field), and the
options carrying `passes` reach only the `StreamDispatcher` construction. -/
theorem C5_counterexample :
    stageEvents (playPCMStream noFail 100 ⟨none, VolumeVal.num 1, some 3⟩ {} initState).2.1 =
      stageEvents (playPCMStream noFail 100 ⟨none, VolumeVal.num 1, some 1⟩ {} initState).2.1 ∧
    encoderParamsOf (playPCMStream noFail 100 ⟨none, VolumeVal.num 1, some 3⟩ {} initState).2.1 =
      [canonicalParams, canonicalParams] ∧
    dispatcherOptsOf (playPCMStream noFail 100 ⟨none, VolumeVal.num 1, some 3⟩ {} initState).2.1 =
      [⟨none, VolumeVal.num 1, some 3⟩] := by
  decide

/-- **C5 amended**: for every play request, `redundancyPasses` parameterizes
no transform stage's construction (the stage-construction events are
unchanged when only `passes` changes, and every encoder is constructed with
the fixed `{ channels: 2, rate: 48000, frameSize: 960 }` record); the
`options` snapshot carrying `passes` is forwarded only to the
`StreamDispatcher` construction. -/
theorem C5_passes_only_to_dispatcher (stream : Nat) (input : PlayInput)
    (seek : Option Nat) (vol : VolumeVal) (p q : Option Nat) (streams : Streams)
    (s : PlayerState) :
    (stageEvents (playPCMStream noFail stream ⟨seek, vol, p⟩ streams s).2.1 =
       stageEvents (playPCMStream noFail stream ⟨seek, vol, q⟩ streams s).2.1) ∧
    (stageEvents (playOpusStream noFail stream ⟨seek, vol, p⟩ streams s).2.1 =
       stageEvents (playOpusStream noFail stream ⟨seek, vol, q⟩ streams s).2.1) ∧
    (stageEvents (playUnknown noFail input ⟨seek, vol, p⟩ s).2.1 =
       stageEvents (playUnknown noFail input ⟨seek, vol, q⟩ s).2.1) ∧
    (dispatcherOptsOf (playPCMStream noFail stream ⟨seek, vol, p⟩ streams s).2.1 =
       [⟨seek, vol, p⟩]) ∧
    (dispatcherOptsOf (playOpusStream noFail stream ⟨seek, vol, p⟩ streams s).2.1 =
       [⟨seek, vol, p⟩]) ∧
    (dispatcherOptsOf (playUnknown noFail input ⟨seek, vol, p⟩ s).2.1 = [⟨seek, vol, p⟩]) ∧
    (∀ pr ∈ encoderParamsOf (playPCMStream noFail stream ⟨seek, vol, p⟩ streams s).2.1,
       pr = canonicalParams) ∧
    (∀ pr ∈ encoderParamsOf (playOpusStream noFail stream ⟨seek, vol, p⟩ streams s).2.1,
       pr = canonicalParams) ∧
    (∀ pr ∈ encoderParamsOf (playUnknown noFail input ⟨seek, vol, p⟩ s).2.1,
       pr = canonicalParams) := by
  unfold playUnknown playPCMStream playOpusStream createDispatcher
  simp only [destroyDispatcher_eq]
  cases input <;> cases vol <;> cases hin : streams.input <;> cases hd : s.dispatcher <;>
    simp [destroyTrace, hd, hin, stageEvents, dispatcherOptsOf, encoderParamsOf, noFail]

/-- Witness for the bounded-quantifier conjuncts of the C5 theorem. -/
theorem C5_passes_only_to_dispatcher_witness :
    ∀ pr ∈ encoderParamsOf
        (playPCMStream noFail 100 ⟨none, VolumeVal.num 1, some 3⟩ {} initState).2.1,
      pr = canonicalParams :=
  (C5_passes_only_to_dispatcher 100 (PlayInput.path "a") none (VolumeVal.num 1)
    (some 3) (some 1) {} initState).2.2.2.2.2.2.1

/-- **C6 counterexample**: when the `VolumeTransformer16LE` construction in
`playPCMStream` throws (oracle fails id 1), the already constructed opus
encoder (id 0) is *not* torn down: the failure propagates with the
construction trace containing the encoder and no stage teardown at all;
the player's dispatcher slot, cleared on entry, stays `null`. -/
theorem C6_counterexample :
    (playPCMStream (fun i => i == 1) 100 ⟨none, VolumeVal.num 1, none⟩ {} initState).2.2 =
      none ∧
    (playPCMStream (fun i => i == 1) 100 ⟨none, VolumeVal.num 1, none⟩ {} initState).2.1 =
      [Event.constructEncoder 0 canonicalParams] ∧
    stageDestroys
      (playPCMStream (fun i => i == 1) 100 ⟨none, VolumeVal.num 1, none⟩ {} initState).2.1 =
      [] ∧
    (playPCMStream (fun i => i == 1) 100 ⟨none, VolumeVal.num 1, none⟩ {} initState).1.dispatcher =
      none := by
  decide

/-- **C6 amended**: on any play call in which a stage construction fails, the
error propagates with *no* teardown of the already-constructed stages (the
code performs no stage teardown whatsoever), but the player's dispatcher
slot — cleared synchronously on entry — is `null` after the failure, so no
partially built pipeline is reachable from the player. -/
theorem C6_failure_no_teardown_slot_cleared (fails : Nat → Bool) (c : Call)
    (s : PlayerState) :
    stageDestroys (step fails c s).2.1 = [] ∧
    ((step fails c s).2.2 = none → (step fails c s).1.dispatcher = none) := by
  obtain ⟨⟨t, ht, htD⟩, hc, hsd, hdisp, hnext, hfresh⟩ := stepSpec fails c s
  exact ⟨hsd, fun h => by rw [hdisp, h]⟩

/-- Witness for C6 at the concrete failing volume-transformer construction. -/
theorem C6_failure_no_teardown_witness :
    (step (fun i => i == 1) (Call.pcm 100 ⟨none, VolumeVal.num 1, none⟩)
      initState).1.dispatcher = none :=
  (C6_failure_no_teardown_slot_cleared (fun i => i == 1)
    (Call.pcm 100 ⟨none, VolumeVal.num 1, none⟩) initState).2 (by decide)

/-- **C7**: `destroy()` is idempotent: from a player holding dispatcher `d`,
the first call invokes the dispatcher's `destroy()` exactly once and clears
the slot, the second call performs nothing at all (no second destroy call,
hence no second notification and no error), and afterwards the slot is
`null`. -/
theorem C7_destroy_idempotent (s : PlayerState) (d : Nat)
    (h : s.dispatcher = some d) :
    (destroy s).2 = [Event.destroyDispatcher d] ∧
    (destroy (destroy s).1).2 = [] ∧
    (destroy (destroy s).1).1.dispatcher = none ∧
    (destroys ((destroy s).2 ++ (destroy (destroy s).1).2)).count d = 1 := by
  unfold destroy
  simp [destroyDispatcher_eq, destroyTrace, h, destroys]

/-- Witness for C7 at a concrete player state holding dispatcher `5`. -/
theorem C7_destroy_idempotent_witness :
    (destroy ⟨some 5, 6⟩).2 = [Event.destroyDispatcher 5] ∧
    (destroy (destroy ⟨some 5, 6⟩).1).2 = [] ∧
    (destroy (destroy ⟨some 5, 6⟩).1).1.dispatcher = none ∧
    (destroys ((destroy ⟨some 5, 6⟩).2 ++ (destroy (destroy ⟨some 5, 6⟩).1).2)).count 5 = 1 :=
  C7_destroy_idempotent ⟨some 5, 6⟩ 5 rfl

/-! ## Embedding of `DefaultPlayer` (src/src/client/voice/player/DefaultPlayer.js)

`playFile` and `playStream` default their option object field by field
(`x === undefined ? default : x`) and then hand the defaulted snapshot to
the pipeline.  The same `Options` record is used for the caller-supplied
object (absent fields are `none` / `VolumeVal.undef`) and for the snapshot. -/

/-- The defaulting performed by `playStream`:
`seek = obj.seek === undefined ? 0 : obj.seek`,
`volume = obj.volume === undefined ? 1 : obj.volume`,
`passes = obj.passes === undefined ? 1 : obj.passes`. -/
def playStreamOptions (obj : Options) : Options :=
  { seek := some (obj.seek.getD 0),
    volume := match obj.volume with
      | VolumeVal.undef => VolumeVal.num 1
      | v => v,
    passes := some (obj.passes.getD 1) }

/-- The option object `playFile` builds and passes to `playStream`:
`{ seek: obj.seek === undefined ? 0 : obj.seek, volume: obj.volume ===
undefined ? 1 : obj.volume }` — it has no `passes` field. -/
def playFileIntermediate (obj : Options) : Options :=
  { seek := some (obj.seek.getD 0),
    volume := match obj.volume with
      | VolumeVal.undef => VolumeVal.num 1
      | v => v,
    passes := none }

/-- The snapshot `playFile` ultimately produces: its intermediate object,
re-defaulted by `playStream`. -/
def playFileOptions (obj : Options) : Options :=
  playStreamOptions (playFileIntermediate obj)

/-- Modelled from the spec: `DefaultPlayer._shutdown` is called by
`playStream` but is not among the sources; per spec §4.4 step (1) a play
entry point synchronously destroys the current dispatcher. -/
def shutdownModel (s : PlayerState) : PlayerState × List Event :=
  destroyDispatcher s

/-- Modelled from the spec: `DefaultPlayer.convertStream` is called by
`playStream` but is not among the sources; per spec §4.2/§6 it is the
SourceDecode stage normalizing the source to canonical PCM — one ffmpeg
transform, parameterized by the seek offset, fed by the caller's stream. -/
def convertStreamModel (fails : Nat → Bool) (stream : Nat) (opts : Options)
    (s : PlayerState) : PlayerState × List Event × Option Nat :=
  let fid := s.nextId
  if fails fid then ({ s with nextId := fid + 1 }, [], none)
  else
    ({ s with nextId := fid + 1 },
     [Event.constructFFmpeg fid
        (FFMPEG_ARGUMENTS ++
          (if seekTruthy opts.seek then ["-ss", toString (opts.seek.getD 0)] else [])),
      Event.pipe stream fid],
     some fid)

/-- `playStream(stream, obj)`: default the options, `this._shutdown()`,
`this.convertStream(stream, options)`, then
`this.playPCMStream(pcmStream, options)` (with the default `streams = {}`). -/
def playStream (fails : Nat → Bool) (stream : Nat) (obj : Options)
    (s : PlayerState) : PlayerState × List Event × Option Nat :=
  let opts := playStreamOptions obj
  let s1 := (shutdownModel s).1
  let t1 := (shutdownModel s).2
  let c := convertStreamModel fails stream opts s1
  match c.2.2 with
  | none => (c.1, t1 ++ c.2.1, none)
  | some pcm =>
    let r := playPCMStream fails pcm opts {} c.1
    (r.1, t1 ++ c.2.1 ++ r.2.1, r.2.2)

/-- `playFile(file, obj)`: default `seek` and `volume`, then
`playStream(fs.createReadStream(file), { seek, volume })`; the created file
read stream is the given stream id. -/
def playFile (fails : Nat → Bool) (fileStream : Nat) (obj : Options)
    (s : PlayerState) : PlayerState × List Event × Option Nat :=
  playStream fails fileStream (playFileIntermediate obj) s

/-- **C8**: omitted options are defaulted to `seek = 0`, `volume = 1`,
`passes = 1` (`playFile` defaulting `seek` and `volume` and carrying no
`passes` field, so `playStream` always defaults it to 1; `playStream`
defaulting all three), and the defaulted snapshot is exactly the options
record handed to the `StreamDispatcher` construction. -/
theorem C8_option_defaults :
    (∀ obj : Options, obj.seek = none →
        (playStreamOptions obj).seek = some 0 ∧ (playFileOptions obj).seek = some 0) ∧
    (∀ obj : Options, obj.volume = VolumeVal.undef →
        (playStreamOptions obj).volume = VolumeVal.num 1 ∧
        (playFileOptions obj).volume = VolumeVal.num 1) ∧
    (∀ obj : Options, obj.passes = none → (playStreamOptions obj).passes = some 1) ∧
    (∀ obj : Options, (playFileOptions obj).passes = some 1) ∧
    playStreamOptions ⟨none, VolumeVal.undef, none⟩ = ⟨some 0, VolumeVal.num 1, some 1⟩ ∧
    (∀ (stream : Nat) (obj : Options) (s : PlayerState),
        dispatcherOptsOf (playStream noFail stream obj s).2.1 =
          [playStreamOptions obj]) ∧
    (∀ (fileStream : Nat) (obj : Options) (s : PlayerState),
        dispatcherOptsOf (playFile noFail fileStream obj s).2.1 =
          [playFileOptions obj]) := by
  have hdisp : ∀ (stream : Nat) (obj : Options) (s : PlayerState),
      dispatcherOptsOf (playStream noFail stream obj s).2.1 = [playStreamOptions obj] := by
    intro stream obj s
    unfold playStream convertStreamModel shutdownModel playPCMStream playOpusStream
      createDispatcher
    simp only [destroyDispatcher_eq]
    cases hv : (playStreamOptions obj).volume <;> cases hd : s.dispatcher <;>
      simp [destroyTrace, hd, hv, dispatcherOptsOf, noFail]
  refine ⟨?_, ?_, ?_, ?_, rfl, hdisp, fun fileStream obj s => hdisp _ _ _⟩
  · intro obj h; simp [playStreamOptions, playFileOptions, playFileIntermediate, h]
  · intro obj h; simp [playStreamOptions, playFileOptions, playFileIntermediate, h]
  · intro obj h; simp [playStreamOptions, h]
  · intro obj; simp [playStreamOptions, playFileOptions, playFileIntermediate]

/-- Witness for C8 at the empty option object. -/
theorem C8_option_defaults_witness :
    (playStreamOptions ⟨none, VolumeVal.undef, none⟩).seek = some 0 ∧
    (playStreamOptions ⟨none, VolumeVal.undef, none⟩).volume = VolumeVal.num 1 ∧
    (playStreamOptions ⟨none, VolumeVal.undef, none⟩).passes = some 1 ∧
    (playFileOptions ⟨none, VolumeVal.undef, none⟩).passes = some 1 :=
  ⟨(C8_option_defaults.1 ⟨none, VolumeVal.undef, none⟩ rfl).1,
   (C8_option_defaults.2.1 ⟨none, VolumeVal.undef, none⟩ rfl).1,
   C8_option_defaults.2.2.1 ⟨none, VolumeVal.undef, none⟩ rfl,
   C8_option_defaults.2.2.2.1 ⟨none, VolumeVal.undef, none⟩⟩

/-! ## Embedding of `ClientDataResolver` (src/src/client/ClientDataResolver.js)

The resolvers branch on the JavaScript runtime type of their argument
(`instanceof` / `typeof`), so the argument is modelled as a tagged value
`JSVal`.  The structure objects carry the fields the resolver code reads;
caches (`client.users`, `client.guilds`, `client.channels`,
`guild.members`, `guild.channels`) are association lists keyed by id
strings, with `Map#get` returning `none` for a missing key.  A returned
`none` stands for JavaScript `null`/`undefined`; a thrown error is an
`Except.error`.  The `Guild`, `User`, ... structure classes themselves are
not among the sources, so their fields are modelled from how the resolver
reads them. -/

structure UserObj where
  id : String
deriving DecidableEq

structure ChannelObj where
  id : String
deriving DecidableEq

structure MemberObj where
  id : String
  user : UserObj
deriving DecidableEq

structure MessageObj where
  author : UserObj
  channel : ChannelObj
deriving DecidableEq

structure GuildObj where
  id : String
  ownerID : String
  owner : Option UserObj
  members : List (String × MemberObj)
  channels : List (String × ChannelObj)
deriving DecidableEq

/-- A JavaScript value as the resolvers can receive it: an instance of one
of the structure classes, a string, a number, or anything else. -/
inductive JSVal
  | user (u : UserObj)
  | member (m : MemberObj)
  | message (m : MessageObj)
  | guild (g : GuildObj)
  | channel (c : ChannelObj)
  | str (s : String)
  | num (n : Int)
  | other
deriving DecidableEq

/-- The caches of the client the resolver is constructed with. -/
structure Client where
  users : List (String × UserObj)
  guilds : List (String × GuildObj)
  channels : List (String × ChannelObj)
deriving DecidableEq

/-- A client with empty caches. -/
def emptyClient : Client := ⟨[], [], []⟩

/-- `Map#get(key)` where the key expression may itself be `undefined`
(`none`): a map keyed by strings holds nothing under `undefined`. -/
def mapGet {α : Type} (m : List (String × α)) : Option String → Option α
  | none => none
  | some k => m.lookup k

/-- `resolveUser(user)`: branch order as in the source — `User`, string
(cache lookup, `|| null`), `GuildMember` (its `.user`), `Message` (its
`.author`), `Guild` (its `.owner`), otherwise `null`. -/
def resolveUser (client : Client) : JSVal → Option UserObj
  | JSVal.user u => some u
  | JSVal.str s => mapGet client.users (some s)
  | JSVal.member m => some m.user
  | JSVal.message m => some m.author
  | JSVal.guild g => g.owner
  | _ => none

/-- `resolveUserID(user)`: `User`/`GuildMember` give `.id`; a string is
returned as is (`user || null`, so the empty string is `null`); `Message`
gives `.author.id`; `Guild` gives `.ownerID`; otherwise `null`. -/
def resolveUserID (client : Client) : JSVal → Option String
  | JSVal.user u => some u.id
  | JSVal.member m => some m.id
  | JSVal.str s => if s = "" then none else some s
  | JSVal.message m => some m.author.id
  | JSVal.guild g => some g.ownerID
  | _ => none

/-- `resolveGuild(guild)`: a `Guild` itself, a string via the guild cache
(`|| null`), otherwise `null`. -/
def resolveGuild (client : Client) : JSVal → Option GuildObj
  | JSVal.guild g => some g
  | JSVal.str s => mapGet client.guilds (some s)
  | _ => none

/-- `resolveGuildMember(guild, user)`: a `GuildMember` user is returned
directly; otherwise both arguments are resolved and on success the guild's
member cache is consulted (`|| null`). -/
def resolveGuildMember (client : Client) (guild user : JSVal) : Option MemberObj :=
  match user with
  | JSVal.member m => some m
  | _ =>
    match resolveGuild client guild, resolveUser client user with
    | some g, some u => mapGet g.members (some u.id)
    | _, _ => none

/-- `resolveChannel(channel)`: a `Channel` itself; a `Message` gives
`.channel`; a `Guild` gives `channel.channels.get(channel.id)` — the
guild's channel cache at the guild's own id; for a string the source reads
`this.client.channels.get(channel.id)`, and `.id` of a string primitive is
`undefined`, so the lookup key is `undefined`; otherwise `null`. -/
def resolveChannel (client : Client) : JSVal → Option ChannelObj
  | JSVal.channel c => some c
  | JSVal.message m => some m.channel
  | JSVal.guild g => mapGet g.channels (some g.id)
  | JSVal.str _ => mapGet client.channels none
  | _ => none

/-- Modelled from the spec: `Constants.PermissionFlags` is not among the
sources; the doc comment in `ClientDataResolver` lists the valid permission
names, each standing for a positive permission number (distinct bits). -/
def permissionNames : List String :=
  ["CREATE_INSTANT_INVITE", "KICK_MEMBERS", "BAN_MEMBERS", "ADMINISTRATOR",
   "MANAGE_CHANNELS", "MANAGE_GUILD", "READ_MESSAGES", "SEND_MESSAGES",
   "SEND_TTS_MESSAGES", "MANAGE_MESSAGES", "EMBED_LINKS", "ATTACH_FILES",
   "READ_MESSAGE_HISTORY", "MENTION_EVERYONE", "EXTERNAL_EMOJIS", "CONNECT",
   "SPEAK", "MUTE_MEMBERS", "DEAFEN_MEMBERS", "MOVE_MEMBERS", "USE_VAD",
   "CHANGE_NICKNAME", "MANAGE_NICKNAMES", "MANAGE_ROLES_OR_PERMISSIONS"]

/-- Modelled from the spec: the flag value of a permission name
(`undefined`, i.e. `none`, for any other string). -/
def PermissionFlags (s : String) : Option Int :=
  (permissionNames.indexOf? s).map fun i => (2 : Int) ^ i

/-- `resolvePermission(permission)`: a string is replaced by
`Constants.PermissionFlags[permission]` (possibly `undefined`); then
anything that is not a number, or is a number `< 1`, throws
`Error(Constants.Errors.NOT_A_PERMISSION)`; otherwise the number is
returned. -/
def resolvePermission (p : JSVal) : Except String Int :=
  let p1 : Option Int :=
    match p with
    | JSVal.str s => PermissionFlags s
    | JSVal.num n => some n
    | _ => none
  match p1 with
  | some n => if n < 1 then Except.error "NOT_A_PERMISSION" else Except.ok n
  | none => Except.error "NOT_A_PERMISSION"

/-- **C9 counterexample**: `resolvePermission` applied to the unresolvable
permission number `0` throws `Error(NOT_A_PERMISSION)` instead of returning
`null` — so not every listed resolution function returns `null` on
unresolvable input. -/
theorem C9_counterexample :
    resolvePermission (JSVal.num 0) = Except.error "NOT_A_PERMISSION" ∧
    resolvePermission JSVal.other = Except.error "NOT_A_PERMISSION" :=
  ⟨rfl, rfl⟩

/-- **C9 amended**: the five identity resolvers (`resolveUser`,
`resolveUserID`, `resolveGuild`, `resolveGuildMember`, `resolveChannel`)
return `null` on unresolvable input and never throw (their embeddings are
total with an `Option` codomain, matching the throw-free source);
`resolvePermission` instead throws `Error(NOT_A_PERMISSION)` on every
unresolvable input (non-string non-number, unknown permission name, or
number below 1). -/
theorem C9_null_on_unresolvable :
    (∀ s, resolveUser emptyClient (JSVal.str s) = none) ∧
    (∀ c n, resolveUser c (JSVal.num n) = none) ∧
    (∀ c, resolveUser c JSVal.other = none) ∧
    (∀ c, resolveUserID c (JSVal.str "") = none) ∧
    (∀ c n, resolveUserID c (JSVal.num n) = none) ∧
    (∀ c, resolveUserID c JSVal.other = none) ∧
    (∀ s, resolveGuild emptyClient (JSVal.str s) = none) ∧
    (∀ c n, resolveGuild c (JSVal.num n) = none) ∧
    (∀ c, resolveGuild c JSVal.other = none) ∧
    (∀ c n1 n2, resolveGuildMember c (JSVal.num n1) (JSVal.num n2) = none) ∧
    (∀ c u, resolveGuildMember c JSVal.other (JSVal.user u) = none) ∧
    (∀ c n, resolveChannel c (JSVal.num n) = none) ∧
    (∀ c, resolveChannel c JSVal.other = none) ∧
    (∀ n, n < 1 → resolvePermission (JSVal.num n) = Except.error "NOT_A_PERMISSION") ∧
    (resolvePermission (JSVal.str "NOT_A_PERMISSION_NAME") =
      Except.error "NOT_A_PERMISSION") ∧
    (∀ g, resolvePermission (JSVal.guild g) = Except.error "NOT_A_PERMISSION") := by
  refine ⟨fun s => ?_, fun c n => rfl, fun c => rfl, fun c => rfl, fun c n => rfl,
    fun c => rfl, fun s => ?_, fun c n => rfl, fun c => rfl, fun c n1 n2 => rfl,
    fun c u => rfl, fun c n => rfl, fun c => rfl, fun n h => ?_, rfl,
    fun g => rfl⟩
  · simp [resolveUser, mapGet, emptyClient]
  · simp [resolveGuild, mapGet, emptyClient]
  · simp [resolvePermission, h]

/-- Witness for the hypothesis-bearing conjunct of the C9 theorem. -/
theorem C9_null_on_unresolvable_witness :
    resolvePermission (JSVal.num (-7)) = Except.error "NOT_A_PERMISSION" :=
  C9_null_on_unresolvable.2.2.2.2.2.2.2.2.2.2.2.2.2.1 (-7) (by decide)

/-- **C10**: `resolveChannel` on a string returns `null` even when a channel
with that id is cached, because the string branch looks up
`client.channels.get(channel.id)` and `.id` of a string is `undefined`;
only `Channel`, `Message` and `Guild` inputs can produce a non-null
result. -/
theorem C10_resolveChannel_string_always_null :
    (∀ c s, resolveChannel c (JSVal.str s) = none) ∧
    (∀ (c : Client) (s : String) (ch : ChannelObj),
        c.channels.lookup s = some ch → resolveChannel c (JSVal.str s) = none) ∧
    (∀ c n, resolveChannel c (JSVal.num n) = none) ∧
    (∀ c u, resolveChannel c (JSVal.user u) = none) ∧
    (∀ c m, resolveChannel c (JSVal.member m) = none) ∧
    (∀ c, resolveChannel c JSVal.other = none) :=
  ⟨fun c s => rfl, fun c s ch h => rfl, fun c n => rfl, fun c u => rfl,
   fun c m => rfl, fun c => rfl⟩

/-- Witness for C10: a client that does cache a channel under id `"1"`
still resolves the string `"1"` to `null`. -/
theorem C10_resolveChannel_string_always_null_witness :
    resolveChannel ⟨[], [], [("1", ⟨"1"⟩)]⟩ (JSVal.str "1") = none :=
  C10_resolveChannel_string_always_null.2.1 ⟨[], [], [("1", ⟨"1"⟩)]⟩ "1" ⟨"1"⟩ (by decide)
